import Mathlib

/-!
Verification of the zipzapzop IPC library and its `ipcc` code generator.

The runtime library lives in `src/ipc.c`; the schema compiler lives in
`src/ipcc/ipcc.rb`.  The definitions below are shallow embeddings of those
sources: C strings become `List Char` (no interior NUL), byte buffers become
`List Nat`, syscalls become an explicit environment `SysEnv` of outcomes
together with an effect trace, and the generated C code emitted by the
templates of `ipcc.rb` is modelled by Lean functions that mirror, line by
line, the behaviour of the emitted statements.
-/

namespace Zzz

/-! ### Error codes

The numeric values of the `IPC_ERROR_*` constants are declared in
`include/ipc.h`, which is not part of the provided sources; only their
names and use sites appear in `src/ipc.c`.  Modelled from the spec:
the transport error codes are distinct small positive constants that the
public entry points negate, kept outside the captured-OS-error band that
starts below -1000 (the band and its offset are visible in
`ipc_strerror`, `src/ipc.c:337-339`). -/

def IPC_ERROR_NAME_TOO_LONG : Int := 1

def IPC_ERROR_NAME_INVALID : Int := 2

def IPC_ERROR_ARGUMENT_INVALID : Int := 3

def IPC_ERROR_NO_MEMORY : Int := 4

def IPC_ERROR_CONNECTION_FAILED : Int := 5

def IPC_ERROR_METHOD_NOT_FOUND : Int := 6

/-- Modelled from the spec: the `CAPTURE_ERRNO` / `IPC_CAPTURE_ERRNO` macro
from the missing private header shifts a positive OS `errno` by the fixed
offset 1000 into the reserved negative band; the offset is fixed by the
reversal in `ipc_strerror` (`src/ipc.c:337-339`), which maps any code
below -1000 back to `(-code) - 1000`. -/
def IPC_CAPTURE_ERRNO (e : Nat) : Int := -(1000 + (e : Int))

/-- Domain selector constants from the missing public header; their exact
values are immaterial, only their distinctness is used
(`get_statedir`, `src/ipc.c:126-158`). -/
def IPC_DOMAIN_SYSTEM : Int := 0

def IPC_DOMAIN_USER : Int := 1

/-- `ipc_strerror` (`src/ipc.c:324-341`).  The OS-level `strerror(3)` table
is external to the program, so it is passed in as `osStrerror`; the switch
on `code * -1` and the `code < -1000` band test are as in the source. -/
def ipc_strerror (osStrerror : Int → String) (code : Int) : String :=
  if -code = IPC_ERROR_NAME_TOO_LONG then
    "The name of a service is too long to fit in a buffer"
  else if -code = IPC_ERROR_NAME_INVALID then
    "Invalid characters in a name"
  else if -code = IPC_ERROR_ARGUMENT_INVALID then
    "Invalid argument"
  else if -code = IPC_ERROR_NO_MEMORY then
    "Memory allocation failed"
  else if code < -1000 then
    osStrerror ((-code) - 1000)
  else
    "Unknown error"

/-! ### Service-name validation -/

/-- The guard `namelen > 0 && service[0] == '.'` of `validate_service_name`
(`src/ipc.c:170`). -/
def leading_dot : List Char → Bool
  | c :: _ => c = '.'
  | [] => false

/-- `validate_service_name` (`src/ipc.c:160-180`).  `maxLen` stands for the
constant `IPC_SERVICE_NAME_MAX` from the missing private header; the
function is parameterised over it.  The C `for` loop over all characters
is `List.any`: the whole name is examined, never a truncated prefix. -/
def validate_service_name (maxLen : Nat) (service : List Char) : Int :=
  if service.length > maxLen then
    -IPC_ERROR_NAME_TOO_LONG
  else if leading_dot service then
    -IPC_ERROR_NAME_INVALID
  else if service.any (fun c => c = '/') then
    -IPC_ERROR_NAME_INVALID
  else
    0

/-- C2: names within the maximum with no leading dot and no slash
(the empty name included) validate to 0; longer names always get the
name-too-long code; within the maximum, a leading dot or any slash gets
the name-invalid code. -/
theorem C2_validate_service_name (maxLen : Nat) (service : List Char) :
    (service.length ≤ maxLen →
      leading_dot service = false →
      (∀ c ∈ service, c ≠ '/') →
      validate_service_name maxLen service = 0) ∧
    (service.length > maxLen →
      validate_service_name maxLen service = -IPC_ERROR_NAME_TOO_LONG) ∧
    (service.length ≤ maxLen →
      (leading_dot service = true ∨ '/' ∈ service) →
      validate_service_name maxLen service = -IPC_ERROR_NAME_INVALID) := by
  refine ⟨?_, ?_, ?_⟩
  · intro hlen hdot hslash
    unfold validate_service_name
    rw [if_neg (by omega), hdot]
    simp only [Bool.false_eq_true, if_false]
    have : service.any (fun c => c = '/') = false := by
      simp only [List.any_eq_false, decide_eq_true_eq]
      intro c hc
      exact hslash c hc
    rw [this]
    simp
  · intro hlen
    unfold validate_service_name
    rw [if_pos hlen]
  · intro hlen hbad
    unfold validate_service_name
    rw [if_neg (by omega)]
    rcases hbad with hdot | hslash
    · rw [hdot]
      simp
    · have hany : service.any (fun c => c = '/') = true := by
        simp only [List.any_eq_true, decide_eq_true_eq]
        exact ⟨'/', hslash, rfl⟩
      rw [hany]
      split <;> simp

/-- Witness for C2 at concrete names: "ok-name" validates, a 6-char name
against maximum 5 is too long, and ".hidden" is invalid. -/
theorem C2_validate_service_name_witness :
    validate_service_name 255 "ok-name".toList = 0 ∧
    validate_service_name 5 "toolong".toList = -IPC_ERROR_NAME_TOO_LONG ∧
    validate_service_name 255 ".hidden".toList = -IPC_ERROR_NAME_INVALID := by
  refine ⟨?_, ?_, ?_⟩
  · exact (C2_validate_service_name 255 "ok-name".toList).1 (by decide) (by decide)
      (by decide)
  · exact (C2_validate_service_name 5 "toolong".toList).2.1 (by decide)
  · exact (C2_validate_service_name 255 ".hidden".toList).2.2 (by decide)
      (Or.inl (by decide))



/-- C5: for every OS errno `e > 0` the captured code `-(1000+e)` is distinct
from every protocol-defined semantic error code, and `ipc_strerror`
recovers the OS error by reversing the offset: it returns exactly the OS
error string for `e`. -/
theorem C5_captured_errno_band (e : Nat) (he : e > 0) (osStrerror : Int → String) :
    IPC_CAPTURE_ERRNO e ≠ -IPC_ERROR_NAME_TOO_LONG ∧
    IPC_CAPTURE_ERRNO e ≠ -IPC_ERROR_NAME_INVALID ∧
    IPC_CAPTURE_ERRNO e ≠ -IPC_ERROR_ARGUMENT_INVALID ∧
    IPC_CAPTURE_ERRNO e ≠ -IPC_ERROR_NO_MEMORY ∧
    IPC_CAPTURE_ERRNO e ≠ -IPC_ERROR_CONNECTION_FAILED ∧
    IPC_CAPTURE_ERRNO e ≠ -IPC_ERROR_METHOD_NOT_FOUND ∧
    ipc_strerror osStrerror (IPC_CAPTURE_ERRNO e) = osStrerror e := by
  have he' : (1 : Int) ≤ (e : Int) := by exact_mod_cast he
  unfold IPC_CAPTURE_ERRNO ipc_strerror
  unfold IPC_ERROR_NAME_TOO_LONG IPC_ERROR_NAME_INVALID IPC_ERROR_ARGUMENT_INVALID
    IPC_ERROR_NO_MEMORY IPC_ERROR_CONNECTION_FAILED IPC_ERROR_METHOD_NOT_FOUND
  refine ⟨by omega, by omega, by omega, by omega, by omega, by omega, ?_⟩
  rw [if_neg (by omega), if_neg (by omega), if_neg (by omega), if_neg (by omega),
    if_pos (by omega)]
  congr 1
  omega

/-- Witness for C5 at the concrete OS error 2 (ENOENT) and a concrete
string table. -/
theorem C5_captured_errno_band_witness :
    IPC_CAPTURE_ERRNO 2 ≠ -IPC_ERROR_NAME_TOO_LONG ∧
    ipc_strerror (fun i => if i = 2 then "No such file or directory" else "?")
      (IPC_CAPTURE_ERRNO 2) = "No such file or directory" := by
  have h := C5_captured_errno_band 2 (by decide)
    (fun i => if i = 2 then "No such file or directory" else "?")
  refine ⟨h.1, ?_⟩
  rw [h.2.2.2.2.2.2]
  norm_num

/-! ### Wire marshaling, as performed by the code `ipcc.rb` generates -/

/-- A marshalable argument value as the generated stubs see it: a text
argument is a possibly-NULL C string (its byte values, none of them 0);
a fixed-width scalar or by-value aggregate is its `sizeof`-many bytes.
The classification mirrors the `case type` of `IPC::Argument#copy_in`
(`src/ipcc/ipcc.rb:44-58`). -/
inductive ArgVal where
  | text (s : Option (List Nat))
  | scalar (bytes : List Nat)

/-- The `iov_len` the generated stub assigns for one accepted argument
(`src/ipcc/ipcc.rb:49,53`): `(name == NULL) ? 0 : strlen(name) + 1` for
text, `sizeof(name)` for a scalar. -/
def iov_len : ArgVal → Nat
  | .text none => 0
  | .text (some s) => s.length + 1
  | .scalar b => b.length

/-- The bytes the scatter write transmits for one argument: `iov_base`
points at the C string and `iov_len` covers its NUL, so text travels as
its bytes followed by 0; a scalar travels as its value bytes verbatim. -/
def iov_segment : ArgVal → List Nat
  | .text none => []
  | .text (some s) => s ++ [0]
  | .scalar b => b

/-- The observable state of a caller's `char **` output after the
generated stub's return-unmarshal path.  `nullPtr` (a NULL pointer
stored in the output) is the outcome the spec asserts for declared size
0; it is a possible state of the output, which is why it is a
constructor, but no path of the emitted code produces it — the
`tmp_<name> = NULL;` statement nulls only the local temporary. -/
inductive TextOut where
  | unassigned
  | danglingFreed
  | buffer (bytes : List Nat)
  | nullPtr
  deriving DecidableEq

/-- Client-side unmarshal of a pointer-typed return value, transcribed
from the emitted statements (`IPC::Argument#returns_to_iovec` and the
`char **` fixup in `IPC::Service#to_c_stub_source`,
`src/ipcc/ipcc.rb:60-70,295-317`).  The whole block is guarded by
`response._ipc_bufsz > 0`, so with a zero total payload the output is
never assigned.  Otherwise `tmp = malloc(argsz)` is read into and
`*name = tmp;` stores it unconditionally; then `argsz == 0` frees the
buffer and nulls only the local temporary, leaving the stored output
dangling, while `argsz >= 1` overwrites the buffer's last byte with
NUL. -/
def stub_recv_text (bufsz sz : Nat) (payload : List Nat) : TextOut :=
  if bufsz = 0 then TextOut.unassigned
  else if sz = 0 then TextOut.danglingFreed
  else TextOut.buffer ((payload.take sz).set (sz - 1) 0)

/-- Reading a buffer as a C string: the bytes before the first NUL. -/
def cstring (buf : List Nat) : List Nat := buf.takeWhile (fun b => b != 0)

/-- Scalar unmarshal on either side: `IPC::Argument#skeleton_copy_in`
dereferences `sizeof` bytes at the payload cursor, and the client return
path reads `sizeof(*name)` bytes into a caller local
(`src/ipcc/ipcc.rb:72-81,66-68`). -/
def recv_scalar (sz : Nat) (body : List Nat) : List Nat := body.take sz

/-- C1 (code bug at declared size 0): the faithful model of the emitted
marshal and return-unmarshal statements shows the scalar kind and
non-empty text round trip as claimed — `sizeof` bytes copied back equal
by value; `strlen+1` bytes received into a buffer of exactly the
declared size whose last byte is forced to NUL, reading back the equal
string — but a declared size of 0 never yields the empty/null value the
claim asserts: with total payload size 0 the unmarshal block is skipped
and the output stays unassigned, with a zero-size argument inside a
nonzero payload the output is left dangling on a freed buffer, and no
execution path stores NULL into the output. -/
theorem C1_zero_size_text_lost :
    (∀ b : List Nat,
      iov_len (ArgVal.scalar b) = b.length ∧
      recv_scalar b.length (iov_segment (ArgVal.scalar b)) = b) ∧
    iov_len (ArgVal.text (some [104, 105])) = 3 ∧
    stub_recv_text 3 3 (iov_segment (ArgVal.text (some [104, 105])))
      = TextOut.buffer [104, 105, 0] ∧
    cstring [104, 105, 0] = [104, 105] ∧
    iov_len (ArgVal.text none) = 0 ∧
    stub_recv_text 0 0 (iov_segment (ArgVal.text none)) = TextOut.unassigned ∧
    stub_recv_text 5 0 [] = TextOut.danglingFreed ∧
    (∀ (bufsz sz : Nat) (payload : List Nat),
      stub_recv_text bufsz sz payload ≠ TextOut.nullPtr) := by
  refine ⟨?_, rfl, by decide, by decide, rfl, by decide, by decide, ?_⟩
  · intro b
    refine ⟨rfl, ?_⟩
    simp [recv_scalar, iov_segment]
  · intro bufsz sz payload
    unfold stub_recv_text
    split
    · simp
    · split <;> simp

/-! ### Message headers built by the generated code -/

/-- The wire header `struct ipc_message` (declared in the missing public
header; fields as used throughout `ipcc.rb`): method id, argument count,
fixed-capacity per-argument size table (modelled as a total table,
zero beyond the filled entries, matching the `memset`), and total payload
size. -/
structure ipc_message where
  ipcMethod : Int
  ipcArgc : Nat
  ipcBufsz : Nat
  ipcArgsz : Nat → Nat

/-- The `count`-indexed loop `argsz[count] = f(arg); count += 1` used by
both `IPC::Method#args_copy_in` and the skeleton response builder. -/
def fill_argsz {α : Type} (f : α → Nat) : Nat → List α → (Nat → Nat) → Nat → Nat
  | _, [], t => t
  | count, a :: rest, t => fill_argsz f (count + 1) rest (Function.update t count (f a))

theorem fill_argsz_lt {α : Type} (f : α → Nat) :
    ∀ (l : List α) (k : Nat) (t : Nat → Nat) (j : Nat), j < k →
      fill_argsz f k l t j = t j := by
  intro l
  induction l with
  | nil => intro k t j _; rfl
  | cons a rest ih =>
    intro k t j h
    unfold fill_argsz
    rw [ih (k + 1) _ j (by omega)]
    exact Function.update_noteq (by omega) _ _

theorem fill_argsz_get {α : Type} (f : α → Nat) :
    ∀ (l : List α) (k i : Nat) (t : Nat → Nat) (h : i < l.length),
      fill_argsz f k l t (k + i) = f (l.get ⟨i, h⟩) := by
  intro l
  induction l with
  | nil => intro k i t h; exact absurd h (by simp)
  | cons a rest ih =>
    intro k i t h
    unfold fill_argsz
    cases i with
    | zero =>
      have hlt := fill_argsz_lt f rest (k + 1) (Function.update t k (f a)) k (by omega)
      have hupd : Function.update t k (f a) k = f a := Function.update_same k (f a) t
      exact hlt.trans hupd
    | succ j =>
      have h' : j < rest.length := Nat.succ_lt_succ_iff.mp (by simpa using h)
      have heq : k + Nat.succ j = (k + 1) + j := by omega
      rw [heq]
      exact ih (k + 1) j (Function.update t k (f a)) h'

theorem foldl_add_eq_sum {α : Type} (f : α → Nat) :
    ∀ (l : List α) (init : Nat),
      l.foldl (fun acc a => acc + f a) init = init + (l.map f).sum := by
  intro l
  induction l with
  | nil => intro init; simp
  | cons a t ih =>
    intro init
    rw [List.foldl_cons, ih, List.map_cons, List.sum_cons]
    omega

/-- The request header the generated client stub fills in
(`IPC::Method#args_copy_in`, `src/ipcc/ipcc.rb:156-182`): `bufsz` is the
emitted sum `0 + iov_in[ 1].iov_len + ...`, `argc` the literal count of
accepted arguments, `argsz` a `memset`-zeroed table filled by the
`argsz[count] = iov_in[count + 1].iov_len` loop. -/
def args_copy_in (method_id : Int) (accepts : List ArgVal) : ipc_message :=
  { ipcMethod := method_id
    ipcArgc := accepts.length
    ipcBufsz := accepts.foldl (fun acc a => acc + iov_len a) 0
    ipcArgsz := fill_argsz iov_len 0 accepts (fun _ => 0) }

/-- The payload segments that follow the header segment in the scatter
write, one per accepted argument, in declared order. -/
def request_segments (accepts : List ArgVal) : List (List Nat) :=
  accepts.map iov_segment

/-- A return value as the skeleton handler marshals it: a `char **` return
is a (non-NULL) C string re-measured with `strlen+1`; anything else is
sent by value with `sizeof` (`src/ipcc/ipcc.rb:418-428`). -/
inductive RetVal where
  | text (s : List Nat)
  | scalar (bytes : List Nat)

/-- The `iov_len` the skeleton assigns for one returned value
(`src/ipcc/ipcc.rb:421,424`). -/
def ret_iov_len : RetVal → Nat
  | .text s => s.length + 1
  | .scalar b => b.length

/-- The bytes the response scatter write transmits for one returned
value. -/
def ret_segment : RetVal → List Nat
  | .text s => s ++ [0]
  | .scalar b => b

/-- The response payload segments, one per returned value, in declared
order. -/
def response_segments (rets : List RetVal) : List (List Nat) :=
  rets.map ret_segment

/-- The response header the generated skeleton handler fills in
(`IPC::Skeleton#to_c_source`, `src/ipcc/ipcc.rb:411-428`): `bufsz`
starts at 0 and is incremented by each `iov_out` length, `argc` is the
literal count of returned values, `argsz` a `memset`-zeroed table filled
per returned value. -/
def skeleton_response (req_method : Int) (rets : List RetVal) : ipc_message :=
  { ipcMethod := req_method
    ipcArgc := rets.length
    ipcBufsz := rets.foldl (fun acc r => acc + ret_iov_len r) 0
    ipcArgsz := fill_argsz ret_iov_len 0 rets (fun _ => 0) }

theorem iov_len_eq_length (a : ArgVal) : iov_len a = (iov_segment a).length := by
  cases a with
  | text s => cases s <;> simp [iov_len, iov_segment]
  | scalar b => rfl

theorem ret_iov_len_eq_length (r : RetVal) :
    ret_iov_len r = (ret_segment r).length := by
  cases r with
  | text s => simp [ret_iov_len, ret_segment]
  | scalar b => rfl

/-- C3: every header built by the generated code is internally consistent:
the total size field is the sum of the per-argument size fields, the
argument count field is the number of marshaled segments, and the i-th
size field is the byte length of the i-th payload segment — for request
headers built by client stubs and response headers built by skeleton
handlers alike. -/
theorem C3_message_header_invariants (method_id : Int) (accepts : List ArgVal)
    (req_method : Int) (rets : List RetVal) :
    ((args_copy_in method_id accepts).ipcBufsz
        = ((request_segments accepts).map List.length).sum ∧
      (args_copy_in method_id accepts).ipcArgc = (request_segments accepts).length ∧
      ∀ i (h : i < (request_segments accepts).length),
        (args_copy_in method_id accepts).ipcArgsz i
          = ((request_segments accepts).get ⟨i, h⟩).length) ∧
    ((skeleton_response req_method rets).ipcBufsz
        = ((response_segments rets).map List.length).sum ∧
      (skeleton_response req_method rets).ipcArgc = (response_segments rets).length ∧
      ∀ i (h : i < (response_segments rets).length),
        (skeleton_response req_method rets).ipcArgsz i
          = ((response_segments rets).get ⟨i, h⟩).length) := by
  have hiov : iov_len = fun a => (iov_segment a).length := funext iov_len_eq_length
  have hret : ret_iov_len = fun r => (ret_segment r).length :=
    funext ret_iov_len_eq_length
  refine ⟨⟨?_, ?_, ?_⟩, ⟨?_, ?_, ?_⟩⟩
  · show accepts.foldl (fun acc a => acc + iov_len a) 0
      = ((request_segments accepts).map List.length).sum
    rw [foldl_add_eq_sum, Nat.zero_add, hiov, request_segments, List.map_map]
    rfl
  · simp [args_copy_in, request_segments]
  · intro i h
    have h' : i < accepts.length := by simpa [request_segments] using h
    show fill_argsz iov_len 0 accepts (fun _ => 0) i
      = ((request_segments accepts).get ⟨i, h⟩).length
    have hg := fill_argsz_get iov_len accepts 0 i (fun _ => 0) h'
    rw [Nat.zero_add] at hg
    rw [hg]
    rw [iov_len_eq_length]
    congr 1
    simp [request_segments]
  · show rets.foldl (fun acc r => acc + ret_iov_len r) 0
      = ((response_segments rets).map List.length).sum
    rw [foldl_add_eq_sum, Nat.zero_add, hret, response_segments, List.map_map]
    rfl
  · simp [skeleton_response, response_segments]
  · intro i h
    have h' : i < rets.length := by simpa [response_segments] using h
    show fill_argsz ret_iov_len 0 rets (fun _ => 0) i
      = ((response_segments rets).get ⟨i, h⟩).length
    have hg := fill_argsz_get ret_iov_len rets 0 i (fun _ => 0) h'
    rw [Nat.zero_add] at hg
    rw [hg]
    rw [ret_iov_len_eq_length]
    congr 1
    simp [response_segments]

/-- Witness for C3 at a concrete request of one text and one scalar
argument and a concrete response of one text value. -/
theorem C3_message_header_invariants_witness :
    (args_copy_in 1 [ArgVal.text (some [104, 105]), ArgVal.scalar [7]]).ipcBufsz = 4 ∧
    (args_copy_in 1 [ArgVal.text (some [104, 105]), ArgVal.scalar [7]]).ipcArgsz 0 = 3 ∧
    (skeleton_response 1 [RetVal.text [112, 111, 110, 103]]).ipcBufsz = 5 := by
  have h := C3_message_header_invariants 1
    [ArgVal.text (some [104, 105]), ArgVal.scalar [7]] 1
    [RetVal.text [112, 111, 110, 103]]
  refine ⟨?_, ?_, ?_⟩
  · rw [h.1.1]; rfl
  · rw [h.1.2.2 0 (by decide)]; rfl
  · rw [h.2.1]; rfl

/-! ### Generated dispatch -/

/-- The generated `ipc_dispatch__<service>` function
(`IPC::Skeleton#to_c_source`, `src/ipcc/ipcc.rb:371-386`): a `switch` on
`request->_ipc_method` over the declared method ids that selects a
handler and tail-calls it, with `default` returning
`-IPC_ERROR_METHOD_NOT_FOUND` and invoking no handler.  The handler type
is abstract; `Except.ok h` means exactly handler `h` is invoked. -/
def ipc_dispatch {α : Type} (methods : List (Int × α)) (request_method : Int) :
    Except Int α :=
  match methods.find? (fun m => m.1 == request_method) with
  | some m => Except.ok m.2
  | none => Except.error (-IPC_ERROR_METHOD_NOT_FOUND)

/-- C4: with pairwise-distinct method ids (a C `switch` rejects duplicate
case labels), a request whose method id is declared reaches exactly that
method's handler, and an undeclared id yields the method-not-found error
with no handler invoked. -/
theorem C4_dispatch {α : Type} (methods : List (Int × α)) (id : Int) (h : α) :
    ((methods.map Prod.fst).Nodup → (id, h) ∈ methods →
      ipc_dispatch methods id = Except.ok h) ∧
    (id ∉ methods.map Prod.fst →
      ipc_dispatch methods id = Except.error (-IPC_ERROR_METHOD_NOT_FOUND)) := by
  constructor
  · induction methods with
    | nil => intro _ hmem; cases hmem
    | cons hd tl ih =>
      intro hnodup hmem
      have hnodup' : (hd.1 ∉ tl.map Prod.fst) ∧ (tl.map Prod.fst).Nodup := by
        simpa [List.nodup_cons] using hnodup
      unfold ipc_dispatch
      rw [List.find?_cons]
      by_cases heq : hd.1 = id
      · have hb : (hd.1 == id) = true := by simpa using heq
        rw [hb]
        rcases List.mem_cons.mp hmem with hhd | htl
        · rw [← hhd]
        · exact absurd (heq ▸ List.mem_map.mpr ⟨(id, h), htl, rfl⟩) hnodup'.1
      · have hb : (hd.1 == id) = false := by simpa using heq
        rw [hb]
        have htl : (id, h) ∈ tl := by
          rcases List.mem_cons.mp hmem with hhd | htl
          · exact absurd (by rw [← hhd]) heq
          · exact htl
        have := ih hnodup'.2 htl
        unfold ipc_dispatch at this
        exact this
  · intro hnot
    have : methods.find? (fun m => m.1 == id) = none := by
      rw [List.find?_eq_none]
      intro x hx
      simp only [beq_iff_eq]
      intro hfst
      exact hnot (List.mem_map.mpr ⟨x, hx, hfst⟩)
    unfold ipc_dispatch
    rw [this]

/-- Witness for C4 on the two-method schema of the spec: ids 1 and 2 with
distinct handler tags; id 2 reaches handler 2, id 3 is method-not-found. -/
theorem C4_dispatch_witness :
    ipc_dispatch [(1, 10), (2, 20)] 2 = Except.ok 20 ∧
    ipc_dispatch [(1, 10), (2, 20)] 3
      = Except.error (-IPC_ERROR_METHOD_NOT_FOUND) := by
  constructor
  · exact (C4_dispatch [(1, 10), (2, 20)] 2 20).1 (by decide) (by decide)
  · exact (C4_dispatch [(1, 10), (2, 20)] 3 0).2 (by decide)

/-! ### Client stub short-write handling -/

/-- The write step of the generated client stub
(`IPC::Service#to_c_stub_source`, `src/ipcc/ipcc.rb:277-285`): one
`writev` of header plus input segments (the second component counts the
`writev` calls made — the emitted code contains exactly one, in no loop);
`bytes < 0` captures `errno`, `bytes < request._ipc_bufsz` returns the
placeholder short-write error `-73`, and no retry happens in either
case. -/
def stub_send (e : Nat) (bufsz : Nat) (bytes : Int) : Option Int × Nat :=
  ( if bytes < 0 then some (IPC_CAPTURE_ERRNO e)
    else if bytes < (bufsz : Int) then some (-73)
    else none
  , 1 )

/-- C8: when the scatter write reports fewer bytes than the declared total
size field, the stub fails with a negative error code after exactly one
write attempt — the write is not retried. -/
theorem C8_short_write_error (e : Nat) (bufsz : Nat) (bytes : Int)
    (hnn : 0 ≤ bytes) (hshort : bytes < (bufsz : Int)) :
    (stub_send e bufsz bytes).1 = some (-73) ∧
    (-73 : Int) < 0 ∧
    (stub_send e bufsz bytes).2 = 1 := by
  refine ⟨?_, by norm_num, rfl⟩
  unfold stub_send
  rw [if_neg (by omega), if_pos hshort]

/-- Witness for C8: 3 of 10 declared bytes written. -/
theorem C8_short_write_error_witness :
    (stub_send 5 10 3).1 = some (-73) ∧ (stub_send 5 10 3).2 = 1 := by
  have h := C8_short_write_error 5 10 3 (by norm_num) (by norm_num)
  exact ⟨h.1, h.2.2⟩

/-! ### Registry entry points with an explicit syscall trace

`ipc_bind` and `ipc_connect` (`src/ipc.c:182-264`) are sequences of
syscalls.  Each syscall outcome is an input in `SysEnv` and every syscall
performed is recorded in order in an effect trace, so that statements of
the form "error X is returned before syscall Y happens" are expressible. -/

/-- One syscall occurrence.  `access(2)` with `X_OK` reads state only;
`mkdir(2)`, `socket(2)`, `bind(2)`, `listen(2)`, `connect(2)` and
`close(2)` have side effects. -/
inductive Eff where
  | access (path : List Char)
  | mkdir (path : List Char)
  | socketCall
  | bindCall (path : List Char)
  | listenCall
  | connectCall (path : List Char)
  | closeCall
  deriving DecidableEq

/-- Whether an effect is a call into the socket API (created socket,
bind, connect, listen, or the close of a just-created socket). -/
def isSockEff : Eff → Bool
  | .access _ => false
  | .mkdir _ => false
  | _ => true

/-- The syscall outcomes and platform constants the runtime consults:
`HOME` (`getenv`), the uid, whether `access(2)` finds a directory, the
results of `mkdir`/`socket`/`bind`/`listen`/`connect`, and the sizes of
the `char path[PATH_MAX]` and `sun_path` buffers plus
`IPC_SERVICE_NAME_MAX` (the latter from the missing private header). -/
structure SysEnv where
  pathMax : Nat
  sunPathMax : Nat
  nameMax : Nat
  home : Option (List Char)
  uid : Nat
  fsExists : List Char → Bool
  accessEnoent : List Char → Bool
  accessErrno : List Char → Nat
  mkdirOk : List Char → Bool
  mkdirErrno : List Char → Nat
  socketOk : Bool
  socketErrno : Nat
  socketFd : Nat
  bindOk : Bool
  bindErrno : Nat
  listenOk : Bool
  listenErrno : Nat
  connectOk : Bool
  connectErrno : Nat

/-- `mkdir_p` (`src/ipc.c:33-51`): `access(path, X_OK)` succeeding means
done; a failure with an errno other than `ENOENT` is captured; otherwise
`mkdir(path, mode)` runs and its failure is captured. -/
def mkdir_p (env : SysEnv) (path : List Char) (mode : Nat) : Int × List Eff :=
  if env.fsExists path then (0, [Eff.access path])
  else if env.accessEnoent path = false then
    (IPC_CAPTURE_ERRNO (env.accessErrno path), [Eff.access path])
  else if env.mkdirOk path then (0, [Eff.access path, Eff.mkdir path])
  else (IPC_CAPTURE_ERRNO (env.mkdirErrno path), [Eff.access path, Eff.mkdir path])

/-- `setup_directories` (`src/ipc.c:53-86`): `mkdir_p` on the state
directory, then on `statedir/services` and `statedir/pidfiles`, each
preceded by an `snprintf` length check against `PATH_MAX` that returns
the name-too-long code when the path would not fit. -/
def setup_directories (env : SysEnv) (statedir : List Char) (mode : Nat) :
    Int × List Eff :=
  if (mkdir_p env statedir mode).1 < 0 then mkdir_p env statedir mode
  else if env.pathMax ≤ (statedir ++ ("/services".toList)).length then
    (-IPC_ERROR_NAME_TOO_LONG, (mkdir_p env statedir mode).2)
  else if (mkdir_p env (statedir ++ ("/services".toList)) mode).1 < 0 then
    ((mkdir_p env (statedir ++ ("/services".toList)) mode).1,
      (mkdir_p env statedir mode).2
        ++ (mkdir_p env (statedir ++ ("/services".toList)) mode).2)
  else if env.pathMax ≤ (statedir ++ ("/pidfiles".toList)).length then
    (-IPC_ERROR_NAME_TOO_LONG,
      (mkdir_p env statedir mode).2
        ++ (mkdir_p env (statedir ++ ("/services".toList)) mode).2)
  else if (mkdir_p env (statedir ++ ("/pidfiles".toList)) mode).1 < 0 then
    ((mkdir_p env (statedir ++ ("/pidfiles".toList)) mode).1,
      (mkdir_p env statedir mode).2
        ++ (mkdir_p env (statedir ++ ("/services".toList)) mode).2
        ++ (mkdir_p env (statedir ++ ("/pidfiles".toList)) mode).2)
  else
    (0,
      (mkdir_p env statedir mode).2
        ++ (mkdir_p env (statedir ++ ("/services".toList)) mode).2
        ++ (mkdir_p env (statedir ++ ("/pidfiles".toList)) mode).2)

/-- `get_statedir` (`src/ipc.c:125-158`): SYSTEM uses `/var/run/ipc`
(`strncpy` into a `PATH_MAX` buffer) and creates the directories only
when running as root; USER requires `HOME`, failing with name-invalid
when it is unset, builds `<home>/.ipc` with an `snprintf` length check,
and creates the directories; any other domain is argument-invalid.
Returns (status, statedir, trace). -/
def get_statedir (env : SysEnv) (domain : Int) : Int × List Char × List Eff :=
  if domain = IPC_DOMAIN_SYSTEM then
    if env.uid = 0 then
      if (setup_directories env (("/var/run/ipc".toList).take env.pathMax) 0o755).1 < 0 then
        ((setup_directories env (("/var/run/ipc".toList).take env.pathMax) 0o755).1,
          ("/var/run/ipc".toList).take env.pathMax,
          (setup_directories env (("/var/run/ipc".toList).take env.pathMax) 0o755).2)
      else
        (0, ("/var/run/ipc".toList).take env.pathMax,
          (setup_directories env (("/var/run/ipc".toList).take env.pathMax) 0o755).2)
    else (0, ("/var/run/ipc".toList).take env.pathMax, [])
  else if domain = IPC_DOMAIN_USER then
    match env.home with
    | none => (-IPC_ERROR_NAME_INVALID, [], [])
    | some home =>
      if env.pathMax ≤ (home ++ ("/.ipc".toList)).length then
        (-IPC_ERROR_NAME_TOO_LONG, home ++ ("/.ipc".toList), [])
      else if (setup_directories env (home ++ ("/.ipc".toList)) 0o755).1 < 0 then
        ((setup_directories env (home ++ ("/.ipc".toList)) 0o755).1,
          home ++ ("/.ipc".toList),
          (setup_directories env (home ++ ("/.ipc".toList)) 0o755).2)
      else
        (0, home ++ ("/.ipc".toList),
          (setup_directories env (home ++ ("/.ipc".toList)) 0o755).2)
  else (-IPC_ERROR_ARGUMENT_INVALID, [], [])

/-- The socket path `statedir/services/<name>,<version>` written by
`snprintf` in `bind_to_name` and `ipc_connect`
(`src/ipc.c:97-98,236-237`). -/
def socket_path (statedir name : List Char) (version : Int) : List Char :=
  statedir ++ ("/services/".toList) ++ name ++ (",".toList) ++ (toString version).toList

/-- `bind_to_name` (`src/ipc.c:88-123`): the `snprintf` length check
against `sizeof(sun_path)` fails with name-too-long before `socket(2)`;
then `socket` and `bind`, each failure captured (a failed `bind` also
closes the new fd); success returns the bound fd. -/
def bind_to_name (env : SysEnv) (statedir name : List Char) (version : Int) :
    Int × List Eff :=
  if env.sunPathMax ≤ (socket_path statedir name version).length then
    (-IPC_ERROR_NAME_TOO_LONG, [])
  else if env.socketOk = false then
    (IPC_CAPTURE_ERRNO env.socketErrno, [Eff.socketCall])
  else if env.bindOk = false then
    (IPC_CAPTURE_ERRNO env.bindErrno,
      [Eff.socketCall, Eff.bindCall (socket_path statedir name version), Eff.closeCall])
  else
    ((env.socketFd : Int),
      [Eff.socketCall, Eff.bindCall (socket_path statedir name version)])

/-- `ipc_bind` (`src/ipc.c:182-215`): validate the name, resolve the
state directory, bind.  The final `listen(fd, 1024)` failure is captured
into a local `rv` that is never returned: the function returns `fd`
regardless, so the model returns the fd and records only the `listen`
syscall. -/
def ipc_bind (env : SysEnv) (domain : Int) (name : List Char) (version : Int) :
    Int × List Eff :=
  if validate_service_name env.nameMax name < 0 then
    (validate_service_name env.nameMax name, [])
  else if (get_statedir env domain).1 < 0 then
    ((get_statedir env domain).1, (get_statedir env domain).2.2)
  else if (bind_to_name env (get_statedir env domain).2.1 name version).1 < 0 then
    ((bind_to_name env (get_statedir env domain).2.1 name version).1,
      (get_statedir env domain).2.2
        ++ (bind_to_name env (get_statedir env domain).2.1 name version).2)
  else
    ((bind_to_name env (get_statedir env domain).2.1 name version).1,
      (get_statedir env domain).2.2
        ++ (bind_to_name env (get_statedir env domain).2.1 name version).2
        ++ [Eff.listenCall])

/-- `ipc_connect` (`src/ipc.c:217-264`): validate, resolve the state
directory, `snprintf` length check against `sizeof(sun_path)` before
`socket(2)`, then `socket` and `connect`, each failure captured (a
failed `connect` also closes the fd). -/
def ipc_connect (env : SysEnv) (domain : Int) (service : List Char) (version : Int) :
    Int × List Eff :=
  if validate_service_name env.nameMax service < 0 then
    (validate_service_name env.nameMax service, [])
  else if (get_statedir env domain).1 < 0 then
    ((get_statedir env domain).1, (get_statedir env domain).2.2)
  else if env.sunPathMax ≤ (socket_path (get_statedir env domain).2.1 service version).length then
    (-IPC_ERROR_NAME_TOO_LONG, (get_statedir env domain).2.2)
  else if env.socketOk = false then
    (IPC_CAPTURE_ERRNO env.socketErrno, (get_statedir env domain).2.2 ++ [Eff.socketCall])
  else if env.connectOk = false then
    (IPC_CAPTURE_ERRNO env.connectErrno,
      (get_statedir env domain).2.2
        ++ [Eff.socketCall,
            Eff.connectCall (socket_path (get_statedir env domain).2.1 service version),
            Eff.closeCall])
  else
    ((env.socketFd : Int),
      (get_statedir env domain).2.2
        ++ [Eff.socketCall,
            Eff.connectCall (socket_path (get_statedir env domain).2.1 service version)])

theorem mkdir_p_no_sock (env : SysEnv) (path : List Char) (mode : Nat) :
    ∀ e ∈ (mkdir_p env path mode).2, isSockEff e = false := by
  intro e he
  unfold mkdir_p at he
  split at he
  · simp at he; subst he; rfl
  · split at he
    · simp at he; subst he; rfl
    · split at he <;> (simp at he; rcases he with he | he <;> (subst he; rfl))

theorem setup_directories_no_sock (env : SysEnv) (statedir : List Char) (mode : Nat) :
    ∀ e ∈ (setup_directories env statedir mode).2, isSockEff e = false := by
  intro e he
  unfold setup_directories at he
  split at he
  · exact mkdir_p_no_sock env statedir mode e he
  · split at he
    · exact mkdir_p_no_sock env statedir mode e he
    · split at he
      · rcases List.mem_append.mp he with h | h
        · exact mkdir_p_no_sock env statedir mode e h
        · exact mkdir_p_no_sock env _ mode e h
      · split at he
        · rcases List.mem_append.mp he with h | h
          · exact mkdir_p_no_sock env statedir mode e h
          · exact mkdir_p_no_sock env _ mode e h
        · split at he
          · rcases List.mem_append.mp he with h | h
            · rcases List.mem_append.mp h with h2 | h2
              · exact mkdir_p_no_sock env statedir mode e h2
              · exact mkdir_p_no_sock env _ mode e h2
            · exact mkdir_p_no_sock env _ mode e h
          · rcases List.mem_append.mp he with h | h
            · rcases List.mem_append.mp h with h2 | h2
              · exact mkdir_p_no_sock env statedir mode e h2
              · exact mkdir_p_no_sock env _ mode e h2
            · exact mkdir_p_no_sock env _ mode e h

theorem get_statedir_no_sock (env : SysEnv) (domain : Int) :
    ∀ e ∈ (get_statedir env domain).2.2, isSockEff e = false := by
  intro e he
  unfold get_statedir at he
  split at he
  · split at he
    · split at he
      · exact setup_directories_no_sock env _ _ e he
      · exact setup_directories_no_sock env _ _ e he
    · simp at he
  · split at he
    · split at he
      · simp at he
      · split at he
        · simp at he
        · split at he
          · exact setup_directories_no_sock env _ _ e he
          · exact setup_directories_no_sock env _ _ e he
    · simp at he

/-- A fully-succeeding USER-domain environment on a fresh filesystem:
`HOME=/home/u`, nothing exists yet, every `mkdir`/`socket`/`bind`
succeeds, `PATH_MAX` 4096, `sun_path` capacity 104, name maximum 255. -/
def envC6 : SysEnv :=
  { pathMax := 4096
    sunPathMax := 104
    nameMax := 255
    home := some ("/home/u".toList)
    uid := 1000
    fsExists := fun _ => false
    accessEnoent := fun _ => true
    accessErrno := fun _ => 2
    mkdirOk := fun _ => true
    mkdirErrno := fun _ => 0
    socketOk := true
    socketErrno := 0
    socketFd := 3
    bindOk := true
    bindErrno := 0
    listenOk := true
    listenErrno := 0
    connectOk := true
    connectErrno := 0 }

set_option maxRecDepth 100000 in
/-- C6 counterexample: with a valid 90-character name whose socket path
(114 bytes) exceeds the 104-byte `sun_path` buffer, `ipc_bind` does
return name-too-long — but only after `mkdir(2)` has created
`/home/u/.ipc` on a fresh filesystem, so the error is not returned
"before performing any syscall with side effects" as the claim states. -/
theorem C6_counterexample :
    (ipc_bind envC6 IPC_DOMAIN_USER (List.replicate 90 'a') 1).1
        = -IPC_ERROR_NAME_TOO_LONG ∧
    Eff.mkdir ("/home/u/.ipc".toList)
        ∈ (ipc_bind envC6 IPC_DOMAIN_USER (List.replicate 90 'a') 1).2 := by
  decide

/-- C6 as amended: when the name validates and the state directory
resolves, a socket path that does not fit the `sun_path` buffer makes
both `ipc_bind` and `ipc_connect` return name-too-long deterministically
before any socket-API syscall — no `socket`, `bind`, `connect`, `listen`
or `close` occurs — though the state-directory `access`/`mkdir` syscalls
may already have run. -/
theorem C6_socket_path_too_long (env : SysEnv) (domain : Int)
    (name : List Char) (version : Int)
    (hname : validate_service_name env.nameMax name = 0)
    (hdir : (get_statedir env domain).1 = 0)
    (hlong : env.sunPathMax
      ≤ (socket_path (get_statedir env domain).2.1 name version).length) :
    (ipc_bind env domain name version).1 = -IPC_ERROR_NAME_TOO_LONG ∧
    (∀ e ∈ (ipc_bind env domain name version).2, isSockEff e = false) ∧
    (ipc_connect env domain name version).1 = -IPC_ERROR_NAME_TOO_LONG ∧
    (∀ e ∈ (ipc_connect env domain name version).2, isSockEff e = false) := by
  have hb : bind_to_name env (get_statedir env domain).2.1 name version
      = (-IPC_ERROR_NAME_TOO_LONG, []) := by
    unfold bind_to_name
    rw [if_pos hlong]
  have hntl : -IPC_ERROR_NAME_TOO_LONG < 0 := by
    norm_num [IPC_ERROR_NAME_TOO_LONG]
  refine ⟨?_, ?_, ?_, ?_⟩
  · unfold ipc_bind
    rw [hname, if_neg (by norm_num), hdir, if_neg (by norm_num), hb,
      if_pos (by exact hntl)]
  · unfold ipc_bind
    rw [hname, if_neg (by norm_num), hdir, if_neg (by norm_num), hb,
      if_pos (by exact hntl)]
    intro e he
    rcases List.mem_append.mp he with h | h
    · exact get_statedir_no_sock env domain e h
    · simp at h
  · unfold ipc_connect
    rw [hname, if_neg (by norm_num), hdir, if_neg (by norm_num), if_pos hlong]
  · unfold ipc_connect
    rw [hname, if_neg (by norm_num), hdir, if_neg (by norm_num), if_pos hlong]
    exact get_statedir_no_sock env domain

/-- Witness for the amended C6 at the concrete environment `envC6` and a
90-character name. -/
theorem C6_socket_path_too_long_witness :
    (ipc_bind envC6 IPC_DOMAIN_USER (List.replicate 90 'a') 1).1
        = -IPC_ERROR_NAME_TOO_LONG ∧
    (∀ e ∈ (ipc_connect envC6 IPC_DOMAIN_USER (List.replicate 90 'a') 1).2,
      isSockEff e = false) := by
  have h := C6_socket_path_too_long envC6 IPC_DOMAIN_USER (List.replicate 90 'a') 1
    (by decide) (by decide) (by decide)
  exact ⟨h.1, h.2.2.2⟩

/-- C9: when validation, state-directory setup and the bind all succeed
but `listen(2)` fails, `ipc_bind` still returns the non-negative bound
descriptor: the captured listen error never reaches the caller (the
result does not even depend on the listen outcome), and the `listen`
syscall is on the trace. -/
theorem C9_listen_error_discarded (env : SysEnv) (domain : Int)
    (name : List Char) (version : Int)
    (hname : validate_service_name env.nameMax name = 0)
    (hdir : (get_statedir env domain).1 = 0)
    (hfit : (socket_path (get_statedir env domain).2.1 name version).length
      < env.sunPathMax)
    (hsock : env.socketOk = true) (hbind : env.bindOk = true)
    (hlisten : env.listenOk = false) :
    (ipc_bind env domain name version).1 = (env.socketFd : Int) ∧
    0 ≤ (ipc_bind env domain name version).1 ∧
    Eff.listenCall ∈ (ipc_bind env domain name version).2 := by
  have hb : bind_to_name env (get_statedir env domain).2.1 name version
      = ((env.socketFd : Int),
         [Eff.socketCall,
          Eff.bindCall (socket_path (get_statedir env domain).2.1 name version)]) := by
    unfold bind_to_name
    rw [if_neg (by omega), hsock, if_neg (by simp), hbind, if_neg (by simp)]
  have hnn : ¬ ((env.socketFd : Int) < 0) :=
    Int.not_lt.mpr (Int.natCast_nonneg _)
  unfold ipc_bind
  rw [hname, if_neg (by norm_num), hdir, if_neg (by norm_num), hb,
    if_neg (by exact hnn)]
  refine ⟨rfl, Int.natCast_nonneg _, ?_⟩
  simp

/-- Environment for the C9 witness: like `envC6` but `listen(2)` fails. -/
def envC9 : SysEnv :=
  { envC6 with listenOk := false }

/-- Witness for C9 at the concrete environment `envC9` and name "svc". -/
theorem C9_listen_error_discarded_witness :
    0 ≤ (ipc_bind envC9 IPC_DOMAIN_USER ("svc".toList) 1).1 ∧
    Eff.listenCall ∈ (ipc_bind envC9 IPC_DOMAIN_USER ("svc".toList) 1).2 := by
  have h := C9_listen_error_discarded envC9 IPC_DOMAIN_USER ("svc".toList) 1
    (by decide) (by decide) (by decide) rfl rfl rfl
  exact ⟨h.2.1, h.2.2⟩

theorem get_statedir_user_no_home (env : SysEnv) (hhome : env.home = none) :
    get_statedir env IPC_DOMAIN_USER = (-IPC_ERROR_NAME_INVALID, [], []) := by
  unfold get_statedir
  rw [if_neg (by norm_num [IPC_DOMAIN_USER, IPC_DOMAIN_SYSTEM]), if_pos rfl, hhome]

/-- Environment for the C10 counterexample: `HOME` unset. -/
def envC10 : SysEnv :=
  { envC6 with home := none }

set_option maxRecDepth 100000 in
/-- C10 counterexample: with `HOME` unset, a 256-character service name
makes `ipc_bind` on the USER domain return name-too-long, not the
name-invalid code the claim asserts "for every service name". -/
theorem C10_counterexample :
    (ipc_bind envC10 IPC_DOMAIN_USER (List.replicate 256 'a') 1).1
        = -IPC_ERROR_NAME_TOO_LONG ∧
    (ipc_bind envC10 IPC_DOMAIN_USER (List.replicate 256 'a') 1).1
        ≠ -IPC_ERROR_NAME_INVALID := by
  decide

/-- C10 as amended: for every service name that passes validation and
every version, `ipc_bind` and `ipc_connect` on the USER domain with
`HOME` unset fail with the name-invalid code before any syscall at all
(the trace is empty). -/
theorem C10_home_unset (env : SysEnv) (name : List Char) (version : Int)
    (hname : validate_service_name env.nameMax name = 0)
    (hhome : env.home = none) :
    ipc_bind env IPC_DOMAIN_USER name version = (-IPC_ERROR_NAME_INVALID, []) ∧
    ipc_connect env IPC_DOMAIN_USER name version = (-IPC_ERROR_NAME_INVALID, []) := by
  have hg := get_statedir_user_no_home env hhome
  have hni : -IPC_ERROR_NAME_INVALID < 0 := by
    norm_num [IPC_ERROR_NAME_INVALID]
  constructor
  · unfold ipc_bind
    rw [hname, if_neg (by norm_num), hg, if_pos (by exact hni)]
  · unfold ipc_connect
    rw [hname, if_neg (by norm_num), hg, if_pos (by exact hni)]

/-- Witness for the amended C10 at the concrete environment `envC10` and
name "svc". -/
theorem C10_home_unset_witness :
    ipc_bind envC10 IPC_DOMAIN_USER ("svc".toList) 1
        = (-IPC_ERROR_NAME_INVALID, []) ∧
    ipc_connect envC10 IPC_DOMAIN_USER ("svc".toList) 1
        = (-IPC_ERROR_NAME_INVALID, []) := by
  exact C10_home_unset envC10 ("svc".toList) 1 (by decide) rfl

/-! ### The `ipcc` code generator (`src/ipcc/ipcc.rb`), textual embedding

Line-by-line transcription of the generator pipeline: schema structures
mirror the YAML fields, the string-producing methods of `Argument`,
`Method`, `Service`, `Skeleton` and `CodeGenerator` become Lean string
functions.  A Ruby `raise` (missing method id, unsupported argument
type) becomes `Option.none`.  Exact ERB trim-mode whitespace is
approximated where the templates interleave tags and text; every datum
the Ruby code reads (and nothing else) is an input here. -/

namespace ipcc

/-- One `name: type` pair of an `accepts`/`returns` list
(`IPC::Argument`, `src/ipcc/ipcc.rb:25-82`). -/
structure ArgSpec where
  name : String
  type : String
  deriving DecidableEq

/-- One method entry of the YAML `methods` table (`IPC::Method`,
`src/ipcc/ipcc.rb:84-191`); `id` is `none` when the schema omits the
required `id` key, which aborts generation. -/
structure MethodSpec where
  name : String
  id : Option Int
  accepts : List ArgSpec
  returns : List ArgSpec
  deriving DecidableEq

/-- The YAML schema: `service`, `domain`, `version`, `methods` in file
order (`IPC::Service#initialize`, `src/ipcc/ipcc.rb:196-203`).  `domain`
is spliced into the generated call to `ipc_client_connect` verbatim. -/
structure ServiceSpec where
  service : String
  domain : String
  version : Int
  methods : List MethodSpec
  deriving DecidableEq

/-- The generator options that exist besides the schema
(`IPC::CodeGenerator`, `src/ipcc/ipcc.rb:457-498`): output directory and
the build flags (the flags are only consumed by `compile`, never by
`generate`). -/
structure GenOptions where
  outdir : String
  cflags : String
  ldflags : String
  deriving DecidableEq

/-- Membership in the Ruby character class `[A-Za-z0-9_]`. -/
def wordChar (c : Char) : Bool :=
  (decide ('A' ≤ c) && decide (c ≤ 'Z'))
    || (decide ('a' ≤ c) && decide (c ≤ 'z'))
    || (decide ('0' ≤ c) && decide (c ≤ '9'))
    || c == '_'

/-- `gsub(/[^A-Za-z0-9_]/, "_")` — the `identifier` methods of `Method`
and `Service` (`src/ipcc/ipcc.rb:107-109,220-222`). -/
def c_identifier (s : String) : String :=
  String.mk (s.toList.map (fun c => if wordChar c then c else '_'))

/-- `upcase.gsub(/[^A-Z0-9]/, "_")` — the include-guard normalization
(`src/ipcc/ipcc.rb:331-333,452-454`). -/
def guard_ident (s : String) : String :=
  String.mk (s.toList.map (fun c =>
    let u := c.toUpper
    if (decide ('A' ≤ u) && decide (u ≤ 'Z'))
        || (decide ('0' ≤ u) && decide (u ≤ '9')) then u else '_'))

/-- Unanchored substring test, as an unanchored Ruby regex match. -/
def strHasInfix (s pat : String) : Bool :=
  (List.range (s.length + 1)).any (fun i => pat.toList.isPrefixOf (s.toList.drop i))

/-- The anchored regex `\A[u]int\d+_t\z` of `copy_in` (the class `[u]`
matches only the letter `u`): `uint`, one or more digits, `_t`. -/
def uintTypeMatch (t : String) : Bool :=
  let l := t.toList
  ("uint".toList).isPrefixOf l
    && ("_t".toList).isSuffixOf l
    && decide (7 ≤ l.length)
    && ((l.drop 4).take (l.length - 6)).all (fun c => c.isDigit)

/-- The unanchored regex `(unsigned )?(long |int )?(int|long|char)` of
`copy_in`: with both leading groups optional and no anchors, it matches
exactly when the type contains `int`, `long` or `char` anywhere. -/
def arithTypeMatch (t : String) : Bool :=
  strHasInfix t "int" || strHasInfix t "long" || strHasInfix t "char"

/-- The anchored regex `\Astruct [A-Za-z0-9_]+\z` of `copy_in`. -/
def structTypeMatch (t : String) : Bool :=
  let l := t.toList
  ("struct ".toList).isPrefixOf l
    && decide (8 ≤ l.length)
    && (l.drop 7).all wordChar

/-- The scalar/aggregate arm of the `case type` in `copy_in`
(`src/ipcc/ipcc.rb:50-51`). -/
def scalarTypeMatch (t : String) : Bool :=
  uintTypeMatch t || arithTypeMatch t
    || t == "float" || t == "double" || t == "long double"
    || structTypeMatch t

/-- `Argument#pointer?`: the declared type ends in `*`
(`src/ipcc/ipcc.rb:35-37`). -/
def pointer_type (t : String) : Bool := t.endsWith "*"

/-- `Argument#return_type` (`src/ipcc/ipcc.rb:39-41`). -/
def return_type (t : String) : String :=
  if pointer_type t then t else t ++ " *"

/-- `Argument#copy_in` (`src/ipcc/ipcc.rb:44-58`): the statements the
client stub runs to place one accepted argument into `iov_in[index]`
(accepted arguments carry 1-based indices, `src/ipcc/ipcc.rb:92-96`);
an unrecognized type raises, aborting generation. -/
def copy_in (index : Nat) (name type : String) : Option (List String) :=
  if type == "char *" then
    some ["iov_in[" ++ toString index ++ "].iov_base = " ++ name ++ ";",
          "iov_in[" ++ toString index ++ "].iov_len = (" ++ name
            ++ " == NULL) ? 0 : strlen(" ++ name ++ ") + 1;"]
  else if scalarTypeMatch type then
    some ["iov_in[" ++ toString index ++ "].iov_base = &" ++ name ++ ";",
          "iov_in[" ++ toString index ++ "].iov_len = sizeof(" ++ name ++ ");"]
  else
    none

/-- `Argument#returns_to_iovec` (`src/ipcc/ipcc.rb:60-70`); returned
values carry 0-based indices (`src/ipcc/ipcc.rb:97-102`). -/
def returns_to_iovec (iov : String) (index : Nat) (name type : String) :
    List String :=
  if pointer_type type then
    ["char *tmp_" ++ name ++ " = malloc(response._ipc_argsz["
        ++ toString index ++ "]);",
      iov ++ "[" ++ toString index ++ "].iov_base = tmp_" ++ name ++ ";",
      iov ++ "[" ++ toString index ++ "].iov_len = response._ipc_argsz["
        ++ toString index ++ "];"]
  else
    [iov ++ "[" ++ toString index ++ "].iov_base = " ++ name ++ ";",
      iov ++ "[" ++ toString index ++ "].iov_len = sizeof(*" ++ name ++ ");"]

/-- `Argument#skeleton_copy_in` (`src/ipcc/ipcc.rb:72-81`); note it
advances `pos` by `argsz[index]` with the argument's 1-based index. -/
def skeleton_copy_in (index : Nat) (name type : String) : List String :=
  (if pointer_type type then
    [type ++ " arg_" ++ name ++ " = (" ++ type ++ ") pos;"]
  else
    [type ++ " arg_" ++ name ++ " = *((" ++ type ++ " *) pos);"])
  ++ ["pos += request->_ipc_argsz[" ++ toString index ++ "];"]

/-- `Method#stub_name` (`src/ipcc/ipcc.rb:112-115`). -/
def stub_name (isSkeleton : Bool) (serviceIdent methodName : String) : String :=
  "ipc_" ++ (if isSkeleton then "skeleton" else "stub") ++ "__"
    ++ serviceIdent ++ "__" ++ c_identifier methodName

/-- `sprintf "%-16s"`: left-justified, space-padded to at least 16. -/
def padRight (s : String) (w : Nat) : String :=
  s ++ String.mk (List.replicate (w - s.length) ' ')

/-- `Method#stub_macro` (`src/ipcc/ipcc.rb:117-119`). -/
def stub_macro (isSkeleton : Bool) (serviceIdent methodName : String) : String :=
  "#define " ++ padRight methodName 16 ++ " "
    ++ stub_name isSkeleton serviceIdent methodName ++ "\n"

/-- `Method#skeleton_prototype` (`src/ipcc/ipcc.rb:121-123`). -/
def skeleton_prototype (serviceIdent methodName : String) : String :=
  "int " ++ stub_name true serviceIdent methodName
    ++ "(int s, struct ipc_message *request, char *body)"

/-- `Method#prototype`, stub flavour (`src/ipcc/ipcc.rb:125-140`). -/
def prototype (serviceIdent : String) (m : MethodSpec) : String :=
  "int " ++ stub_name false serviceIdent m.name ++ "(\n"
    ++ "\t/* returns */\n\t"
    ++ String.intercalate ", "
        (m.returns.map (fun a => return_type a.type ++ " " ++ a.name))
    ++ ", " ++ "\n\t/* accepts */\n\t"
    ++ String.intercalate ", " (m.accepts.map (fun a => a.type ++ " " ++ a.name))
    ++ "\n)"

/-- `Method#archetype` (`src/ipcc/ipcc.rb:144-154`). -/
def archetype (m : MethodSpec) : String :=
  "extern int " ++ m.name ++ "(\n"
    ++ String.intercalate ",\n"
        ((m.returns.map (fun a => return_type a.type ++ " " ++ a.name)
            ++ m.accepts.map (fun a => a.type ++ " " ++ a.name)).map
          (fun s => "\t" ++ s))
    ++ "\n);"

/-- `Method#args_copy_in` (`src/ipcc/ipcc.rb:156-182`): iovec setup,
per-argument copy-in, and the header-variable assignments. -/
def method_args_copy_in (m : MethodSpec) (mid : Int) : Option (List String) := do
  let per ← m.accepts.enum.mapM (fun p => copy_in (p.1 + 1) p.2.name p.2.type)
  some (["struct iovec iov_in[" ++ toString (m.accepts.length + 1) ++ "];",
         "iov_in[0].iov_base = &request;",
         "iov_in[0].iov_len = sizeof(request);"]
    ++ per.flatten
    ++ ["", "/* Set the header variables */",
        "request._ipc_bufsz = 0"
          ++ String.join (m.accepts.enum.map (fun p =>
              " + iov_in[" ++ toString (p.1 + 1) ++ "].iov_len"))
          ++ ";",
        "request._ipc_method = " ++ toString mid ++ ";",
        "request._ipc_argc = " ++ toString m.accepts.length ++ ";",
        "memset(&request._ipc_argsz, 0, sizeof(request._ipc_argsz));"]
    ++ (List.range m.accepts.length).map (fun count =>
        "request._ipc_argsz[" ++ toString count ++ "] = iov_in["
          ++ toString (count + 1) ++ "].iov_len;")
    ++ [""])

/-- `Method#archetype_args` (`src/ipcc/ipcc.rb:185-190`). -/
def archetype_args (m : MethodSpec) : String :=
  String.intercalate ", " (m.returns.map (fun r => "&ret_" ++ r.name)
    ++ m.accepts.map (fun a => "arg_" ++ a.name))

/-- `Service#to_c_stub_header` (`src/ipcc/ipcc.rb:224-238`): guard,
`#include <ipc.h>`, the stub macros, the extern prototypes. -/
def to_c_stub_header (sv : ServiceSpec) : String :=
  let g := "IPC_STUB_" ++ guard_ident sv.service ++ "_H"
  "#ifndef " ++ g ++ "\n#define " ++ g ++ "\n\n#include <ipc.h>\n\n"
    ++ String.intercalate "\n"
        (sv.methods.map (fun m => stub_macro false (c_identifier sv.service) m.name))
    ++ "\n      \n"
    ++ String.intercalate "\n"
        (sv.methods.map (fun m =>
          "extern " ++ prototype (c_identifier sv.service) m ++ ";"))
    ++ "\n\n#endif /* !" ++ g ++ " */\n"

/-- The per-method body of `Service#to_c_stub_source`
(`src/ipcc/ipcc.rb:249-324`): connect, scatter write of header plus
inputs, short-write check, read and validate the response header, read
the return payload, and the `char **` null-termination fixup. -/
def stub_method_source (sv : ServiceSpec) (m : MethodSpec) (mid : Int) :
    Option String := do
  let acLines ← method_args_copy_in m mid
  some (prototype (c_identifier sv.service) m ++ "\n\n\x7b\n"
    ++ "\tstruct ipc_message request;\n"
    ++ "\tstruct ipc_message response;\n"
    ++ "\tstruct ipc_client *client;\n"
    ++ "\tstruct ipc_session *session;\n"
    ++ "\tchar *buf = NULL;\n"
    ++ "\tint fd = -1;\n"
    ++ "\tint rv = 0;\n"
    ++ "\tssize_t bytes;\n\n"
    ++ "\tclient = ipc_client();\n"
    ++ "\tif (!client) return -IPC_ERROR_NO_MEMORY;\n\n"
    ++ "\tsession = ipc_client_connect(client, " ++ sv.domain ++ ", \""
      ++ sv.service ++ "\");\n"
    ++ "\tif (!session) \x7b \n"
    ++ "\t\trv = -IPC_ERROR_CONNECTION_FAILED;\n"
    ++ "\t\tgoto out;\n"
    ++ "\t\x7d\n\t\n"
    ++ "\tfd = ipc_session_fd(session);\n\n"
    ++ String.join (acLines.map (fun l => "\t" ++ l ++ "\n"))
    ++ "  \n"
    ++ "\tbytes = writev(fd, (struct iovec *) &iov_in, "
      ++ toString (m.accepts.length + 1) ++ ");\n"
    ++ "\tif (bytes < 0) \x7b\n\t\trv = IPC_CAPTURE_ERRNO;\n\t\tgoto out;\n\t\x7d\n"
    ++ "\tif (bytes < request._ipc_bufsz) \x7b\n"
    ++ "\t\trv = -73; /* FIXME: need an error code / logging */\n"
    ++ "\t\tgoto out; \n\t\x7d\n\n"
    ++ "\tif (read(fd, &response, sizeof(response)) < sizeof(response)) \x7b\n"
    ++ "\t\trv = IPC_CAPTURE_ERRNO;\n\t\tgoto out;\n\t\x7d\n\n"
    ++ "\trv = ipc_message_validate(&response);\n"
    ++ "\tif (rv < 0) goto out;\n\t\n"
    ++ "\tif (response._ipc_bufsz > 0) \x7b\n"
    ++ "\t\tstruct iovec iov[" ++ toString m.returns.length ++ "];\n"
    ++ String.join (m.returns.enum.map (fun p =>
        String.join ((returns_to_iovec "iov" p.1 p.2.name p.2.type).map
          (fun l => "\t\t" ++ l ++ "\n"))))
    ++ "\t\tif (readv(fd, (struct iovec *) &iov, " ++ toString m.returns.length
      ++ ") < response._ipc_bufsz) \x7b\n"
    ++ "\t\t\trv = IPC_CAPTURE_ERRNO;\n\t\t\tgoto out;\n\t\t\x7d\n"
    ++ String.join (m.returns.enum.map (fun p =>
        if p.2.type == "char **" then
          "\t\t*" ++ p.2.name ++ " = tmp_" ++ p.2.name ++ ";\n"
          ++ "\t\tif (response._ipc_argsz[" ++ toString p.1 ++ "] == 0) \x7b\n"
          ++ "\t\t\tfree(tmp_" ++ p.2.name ++ ");\n"
          ++ "\t\t\ttmp_" ++ p.2.name ++ " = NULL;\n"
          ++ "\t\t\x7d else \x7b\n"
          ++ "\t\t\ttmp_" ++ p.2.name ++ "[response._ipc_argsz["
            ++ toString p.1 ++ "] -1] = \x27\\0\x27;\n"
          ++ "\t\t\x7d\n"
        else ""))
    ++ "\t\x7d\n\nout:\n\tfree(buf);\n\tclose(fd);\n\treturn rv;\n\x7d\n")

/-- `Service#to_c_stub_source` (`src/ipcc/ipcc.rb:240-327`): the fixed
includes followed by one stub function per method. -/
def to_c_stub_source (sv : ServiceSpec) : Option String := do
  let ms ← sv.methods.mapM (fun m => do
    let mid ← m.id
    stub_method_source sv m mid)
  some ("#include <stdio.h>\n#include <stdlib.h>\n#include <string.h>\n"
    ++ "#include <sys/uio.h>\n        \n#include <ipc.h>\n      \n\n"
    ++ String.join (ms.map (fun b => b ++ "\n")))

/-- `Skeleton#to_c_header` (`src/ipcc/ipcc.rb:338-356`): guard, the
dispatch declaration, and the lone `;` left by the disabled (`if false`)
prototype block. -/
def skeleton_to_c_header (sv : ServiceSpec) : String :=
  let g := "IPC_SKELETON_" ++ guard_ident sv.service ++ "_H"
  "#ifndef " ++ g ++ "\n#define " ++ g ++ "\n\n#include <ipc.h>\n\n"
    ++ "int ipc_dispatch__" ++ c_identifier sv.service
    ++ "(int, struct ipc_message *, char *);\n\n"
    ++ ";\n\n#endif /* !" ++ g ++ " */\n"

/-- The per-method handler of `Skeleton#to_c_source`
(`src/ipcc/ipcc.rb:388-445`): temporaries for the return values, the
positional copy-in of accepted arguments, the call to the real function,
the response header and iovecs, and the response scatter write. -/
def skeleton_method_source (sv : ServiceSpec) (m : MethodSpec) : String :=
  skeleton_prototype (c_identifier sv.service) m.name ++ "\n\x7b\n"
    ++ "\tint rv = 0;\n"
    ++ "\tstruct ipc_message response;\n"
    ++ "\tstruct iovec iov_in[" ++ toString m.accepts.length ++ "];\n"
    ++ "\tstruct iovec iov_out[" ++ toString (m.returns.length + 1) ++ "];\n"
    ++ "\tssize_t bytes;\n\n"
    ++ "\t/* Setup temporary variables to hold the return values */\n"
    ++ String.join (m.returns.map (fun r =>
        "\t" ++ (if r.type == "char **" then "char *" else r.type)
          ++ " ret_" ++ r.name ++ ";\n"))
    ++ "\t\n\t/* Copy in arguments */\n\tvoid *pos = body;\n"
    ++ String.join ((m.accepts.enum.map (fun p =>
        skeleton_copy_in (p.1 + 1) p.2.name p.2.type)).flatten.map
          (fun l => "\t" ++ l ++ "\n"))
    ++ "\t\n\t/* Call the real function */\n"
    ++ "\trv = " ++ m.name ++ "(" ++ archetype_args m ++ ");\n  \n"
    ++ "\t/* Prepare the response */\n"
    ++ "\tiov_out[0].iov_base = &response;\n"
    ++ "\tiov_out[0].iov_len = sizeof(response);\n"
    ++ "\tresponse._ipc_bufsz = 0;\n"
    ++ "\tresponse._ipc_method = request->_ipc_method;\n"
    ++ "\tresponse._ipc_argc = " ++ toString m.returns.length ++ ";\n"
    ++ "\tmemset(&response._ipc_argsz, 0, sizeof(response._ipc_argsz));\n"
    ++ String.join (m.returns.enum.map (fun p =>
        (if p.2.type == "char **" then
          "\tiov_out[" ++ toString (p.1 + 1) ++ "].iov_base = ret_"
            ++ p.2.name ++ ";\n"
          ++ "\tiov_out[" ++ toString (p.1 + 1) ++ "].iov_len = strlen(ret_"
            ++ p.2.name ++ ") + 1;\n"
        else
          "\tiov_out[" ++ toString (p.1 + 1) ++ "].iov_base = &ret_"
            ++ p.2.name ++ ";\n"
          ++ "\tiov_out[" ++ toString (p.1 + 1) ++ "].iov_len = sizeof(ret_"
            ++ p.2.name ++ ");\n")
        ++ "\tresponse._ipc_argsz[" ++ toString p.1 ++ "] = iov_out["
          ++ toString (p.1 + 1) ++ "].iov_len;\n"
        ++ "\tresponse._ipc_bufsz += iov_out[" ++ toString (p.1 + 1)
          ++ "].iov_len;\n"))
    ++ "      \n"
    ++ "\t/* Send the response */\n"
    ++ "\tbytes = writev(s, (struct iovec *) &iov_out, "
      ++ toString (m.returns.length + 1) ++ ");\n"
    ++ "\tif (bytes < 0) \x7b\n\t\trv = IPC_CAPTURE_ERRNO;\n\t\tgoto out;\n\t\x7d\n"
    ++ "\tif (bytes < response._ipc_bufsz) \x7b\n"
    ++ "\t\trv = -1; /* TODO: return code for a short write */\n"
    ++ "\t\tgoto out;\n\t\x7d\n\nout:\n\tclose(s);\n\treturn rv;\n\x7d\n"

/-- `Skeleton#to_c_source` (`src/ipcc/ipcc.rb:358-448`): includes, the
handler prototypes, the archetypes, the dispatch `switch`, and the
handlers. -/
def skeleton_to_c_source (sv : ServiceSpec) : Option String := do
  let ms ← sv.methods.mapM (fun m => do
    let mid ← m.id
    some (m, mid))
  some ("\n#include <stdlib.h>\n#include <string.h>\n#include <sys/uio.h>\n"
    ++ "    \n#include <ipc.h>\n\n"
    ++ String.intercalate ";\n\n"
        (ms.map (fun p => skeleton_prototype (c_identifier sv.service) p.1.name))
      ++ ";\n\n\n"
    ++ String.intercalate "\n\n" (ms.map (fun p => archetype p.1)) ++ "\n\n"
    ++ "int ipc_dispatch__" ++ c_identifier sv.service
      ++ "(int s, struct ipc_message *request, char *body)\n\x7b\n"
    ++ "\tint (*method)(int, struct ipc_message *, char *);\n\n"
    ++ "\tswitch (request->_ipc_method) \x7b\n"
    ++ String.join (ms.map (fun p =>
        "\n\t\tcase " ++ toString p.2 ++ ":\n\t\t\tmethod = &"
          ++ stub_name true (c_identifier sv.service) p.1.name
          ++ ";\n\t\t\tbreak;\t\n"))
    ++ "\n\t\tdefault:\n\t\t\treturn -IPC_ERROR_METHOD_NOT_FOUND;\n"
    ++ "\t\t\t/* NOTREACHED */\n\t\x7d\n"
    ++ "\treturn (*method)(s, request, body);\n\x7d\n\n"
    ++ String.join (ms.map (fun p => skeleton_method_source sv p.1 ++ "\n")))

/-- `CodeGenerator#generate` (`src/ipcc/ipcc.rb:470-489`): the three
output files — shared declaration unit, server skeleton source, client
stub source — each as (path, content), each content opening with the
generated-file marker comment.  `none` when the schema has a method
without an id or an argument of unsupported type. -/
def generate (sv : ServiceSpec) (opts : GenOptions) :
    Option (List (String × String)) := do
  let skelSrc ← skeleton_to_c_source sv
  let stubSrc ← to_c_stub_source sv
  some [
    (opts.outdir ++ "/" ++ c_identifier sv.service ++ ".ipc.h",
      "/* Automatically generated by ipcc(1) -- do not edit */\n"
        ++ to_c_stub_header sv),
    (opts.outdir ++ "/" ++ c_identifier sv.service ++ ".ipc-skeleton.c",
      "/* Automatically generated by ipcc(1) -- do not edit */\n"
        ++ skeleton_to_c_header sv ++ skelSrc),
    (opts.outdir ++ "/" ++ c_identifier sv.service ++ ".ipc-stub.c",
      "/* Automatically generated by ipcc(1) -- do not edit */\n"
        ++ to_c_stub_header sv ++ stubSrc)]

end ipcc

/-- C7: the generator is deterministic — it is a function of the schema
content and the options alone (no clock, randomness, or ambient state is
among its inputs), so two runs with identical schema and identical
options produce byte-identical declaration, stub, and skeleton files. -/
theorem C7_generator_deterministic (s1 s2 : ipcc.ServiceSpec)
    (o1 o2 : ipcc.GenOptions) (hs : s1 = s2) (ho : o1 = o2) :
    ipcc.generate s1 o1 = ipcc.generate s2 o2 := by
  subst hs
  subst ho
  rfl

/-- The spec's `echo`/`ping` example schema. -/
def pingSpec : ipcc.ServiceSpec :=
  { service := "echo"
    domain := "IPC_DOMAIN_USER"
    version := 1
    methods := [
      { name := "ping"
        id := some 1
        accepts := []
        returns := [{ name := "reply", type := "char **" }] }] }

/-- Witness for C7 at the concrete `echo` schema: two runs agree, and
generation actually succeeds there. -/
theorem C7_generator_deterministic_witness :
    ipcc.generate pingSpec ⟨"gen", "", ""⟩
        = ipcc.generate pingSpec ⟨"gen", "", ""⟩ ∧
    (ipcc.generate pingSpec ⟨"gen", "", ""⟩).isSome = true := by
  constructor
  · exact C7_generator_deterministic pingSpec pingSpec ⟨"gen", "", ""⟩
      ⟨"gen", "", ""⟩ rfl rfl
  · rfl

end Zzz
